import Mathlib

/-!
Verification of the mock-data generator library (`src/components/mockData.js`)
and of the uPlot canvas rendering plugins (`src/components/UPlotDemo.jsx`) of
the react_chart_test repository.

Modelling conventions, used throughout:

* JS numbers are idealized as rationals `ℚ`; decimal literals such as `0.8`
  or `1.5` denote the exact rationals `4/5`, `3/2`.
* `Math.random()` is modelled as an explicit stream `σ : ℕ → ℚ`; the `n`-th
  call of `Math.random()` returns `σ n`.  The guarantee `0 ≤ σ n < 1` of the
  JS runtime becomes an explicit hypothesis where a theorem needs it.
  Every generator takes the stream `σ` and the index `k` of the first draw it
  consumes, and returns its result paired with the index of the first draw
  left unconsumed, so that sequential calls can be chained like the shared
  global random source in JS.
* `Date.now()` is modelled as an explicit parameter `now : ℚ`.
* `Number(x.toFixed(2))` is modelled as `round2` (round to a multiple of
  1/100, ties away from the lower value, exactly `⌊100x + 1/2⌋ / 100`), and
  `Math.round` as Mathlib's `round` (`⌊x + 1/2⌋`), which agrees with the JS
  semantics of rounding half towards +∞.
-/

namespace ChartTest

/-- `rand(min, max) = Math.random() * (max - min) + min` (mockData.js line 5),
reading its `Math.random()` call from the stream at index `k`. -/
def rand (σ : ℕ → ℚ) (k : ℕ) (lo hi : ℚ) : ℚ := σ k * (hi - lo) + lo

/-- `randInt(min, max) = Math.floor(rand(min, max + 1))` (mockData.js line 6). -/
def randInt (σ : ℕ → ℚ) (k : ℕ) (lo hi : ℚ) : ℤ := ⌊rand σ k lo (hi + 1)⌋

/-- `Number(x.toFixed(2))`: round to two decimal places. -/
def round2 (x : ℚ) : ℚ := (round (100 * x) : ℤ) / 100

theorem roundRat_mono {x y : ℚ} (h : x ≤ y) : round x ≤ round y := by
  rw [round_eq, round_eq]
  exact Int.floor_le_floor (by linarith)

theorem round2_monotone : Monotone round2 := by
  intro x y h
  unfold round2
  have hr : round (100 * x) ≤ round (100 * y) := roundRat_mono (by linarith)
  exact (div_le_div_iff_of_pos_right (by norm_num)).mpr (by exact_mod_cast hr)

theorem round2_one : round2 1 = 1 := by
  unfold round2
  norm_num

/-- The configuration object passed to a generator: a JS object with optional
numeric fields; a field that is absent (`none`) takes the generator's
documented default. -/
structure Config where
  points : Option ℕ := none
  series : Option ℕ := none
  categories : Option ℕ := none
  slices : Option ℕ := none
  clusters : Option ℕ := none
  axes : Option ℕ := none
  groups : Option ℕ := none
  samples : Option ℕ := none
  x : Option ℕ := none
  y : Option ℕ := none
  nodes : Option ℕ := none
  extraLinks : Option ℕ := none
  depth : Option ℕ := none
  breadth : Option ℕ := none
  links : Option ℕ := none
  stages : Option ℕ := none
  days : Option ℕ := none
  start : Option ℚ := none
  interval : Option ℚ := none
  min : Option ℚ := none
  max : Option ℚ := none
  volatility : Option ℚ := none
  spread : Option ℚ := none
  centerRange : Option ℚ := none
  base : Option ℚ := none
  startValue : Option ℚ := none
  drop : Option ℚ := none
  startDate : Option ℚ := none
deriving DecidableEq

/-- One OHLC row `[time, open, high, low, close]` produced by
`generateCandlestick`.  (`open` is a Lean keyword, hence the field name
`openv`.) -/
structure Candle where
  time : ℚ
  openv : ℚ
  high : ℚ
  low : ℚ
  close : ℚ
deriving DecidableEq

/-- The loop body of `generateCandlestick` (mockData.js lines 55-65):
`i` is the loop counter, `n` the number of remaining iterations, `k` the
index of the next random draw, `price` the current walk state.  Each
iteration consumes three draws (price step, high wick, low wick). -/
def genCandleAux (σ : ℕ → ℚ) (start interval volatility : ℚ) :
    ℕ → ℕ → ℕ → ℚ → List Candle
  | _, 0, _, _ => []
  | i, n + 1, k, price =>
      let time := start + (i : ℚ) * interval
      let o := price
      let price1 := max 1 (price + rand σ k (-volatility) volatility)
      let c := price1
      let h := max o c + rand σ (k + 1) 0 (volatility * (3 / 2))
      let l := min o c - rand σ (k + 2) 0 (volatility * (3 / 2))
      { time := time, openv := round2 o, high := round2 h,
        low := round2 l, close := round2 c }
        :: genCandleAux σ start interval volatility (i + 1) n (k + 3) price1

/-- `generateCandlestick` (mockData.js lines 54-67). -/
def generateCandlestick (σ : ℕ → ℚ) (now : ℚ) (k : ℕ) (cfg : Config) :
    List Candle × ℕ :=
  let points := cfg.points.getD 120
  let start := cfg.start.getD (now - 120 * 86400000)
  let interval := cfg.interval.getD 86400000
  let base := cfg.base.getD 100
  let volatility := cfg.volatility.getD 2
  (genCandleAux σ start interval volatility 0 points k base, k + 3 * points)

theorem genCandleAux_high_low (σ : ℕ → ℚ) (start interval v : ℚ)
    (hσ : ∀ m, 0 ≤ σ m) (hv : 0 ≤ v) :
    ∀ (n i k : ℕ) (price : ℚ), ∀ c ∈ genCandleAux σ start interval v i n k price,
      max c.openv c.close ≤ c.high ∧ c.low ≤ min c.openv c.close := by
  intro n
  induction n with
  | zero => intro i k price c hc; simp [genCandleAux] at hc
  | succ m ih =>
      intro i k price c hc
      simp only [genCandleAux, List.mem_cons] at hc
      rcases hc with rfl | hc
      · constructor
        · have hδ : 0 ≤ rand σ (k + 1) 0 (v * (3 / 2)) := by
            unfold rand
            have := hσ (k + 1)
            nlinarith
          have h1 : round2 (max price (max 1 (price + rand σ k (-v) v))) ≤
              round2 (max price (max 1 (price + rand σ k (-v) v)) +
                rand σ (k + 1) 0 (v * (3 / 2))) :=
            round2_monotone (by linarith)
          have h2 : round2 (max price (max 1 (price + rand σ k (-v) v))) =
              max (round2 price) (round2 (max 1 (price + rand σ k (-v) v))) :=
            round2_monotone.map_max
          simp only
          rw [← h2]
          exact h1
        · have hδ : 0 ≤ rand σ (k + 2) 0 (v * (3 / 2)) := by
            unfold rand
            have := hσ (k + 2)
            nlinarith
          have h1 : round2 (min price (max 1 (price + rand σ k (-v) v)) -
                rand σ (k + 2) 0 (v * (3 / 2))) ≤
              round2 (min price (max 1 (price + rand σ k (-v) v))) :=
            round2_monotone (by linarith)
          have h2 : round2 (min price (max 1 (price + rand σ k (-v) v))) =
              min (round2 price) (round2 (max 1 (price + rand σ k (-v) v))) :=
            round2_monotone.map_min
          simp only
          rw [← h2]
          exact h1
      · exact ih (i + 1) (k + 3) _ c hc

/-- A fixed concrete random stream (every `Math.random()` call returns 1/2),
used to instantiate theorems at concrete inputs. -/
def sigmaHalf : ℕ → ℚ := fun _ => 1 / 2

/-- A fixed concrete random stream (every `Math.random()` call returns 0). -/
def sigmaZero : ℕ → ℚ := fun _ => 0

/-- Claim C1, amended: for every configuration whose `volatility` is
nonnegative, every row produced by `generateCandlestick` satisfies
`high ≥ max(open, close)` and `low ≤ min(open, close)`.  (As stated over
every configuration the claim fails: a negative `volatility` makes the
wick offsets `rand(0, volatility * 1.5)` negative, see
`candlestick_high_low_neg_volatility_violation`.) -/
theorem candlestick_high_low_envelope (σ : ℕ → ℚ) (now : ℚ) (k : ℕ)
    (cfg : Config) (hσ : ∀ m, 0 ≤ σ m) (hv : 0 ≤ cfg.volatility.getD 2)
    (c : Candle) (hc : c ∈ (generateCandlestick σ now k cfg).1) :
    max c.openv c.close ≤ c.high ∧ c.low ≤ min c.openv c.close :=
  genCandleAux_high_low σ (cfg.start.getD (now - 120 * 86400000))
    (cfg.interval.getD 86400000) (cfg.volatility.getD 2) hσ hv
    (cfg.points.getD 120) 0 k (cfg.base.getD 100) c hc

/-- Witness for `candlestick_high_low_envelope` at a concrete input. -/
theorem candlestick_high_low_envelope_witness :
    max ((((generateCandlestick sigmaHalf 0 0
          { points := some 1, start := some 0, interval := some 1,
            base := some 100, volatility := some 2 }).1.getD 0
            ⟨0, 0, 0, 0, 0⟩)).openv)
        ((((generateCandlestick sigmaHalf 0 0
          { points := some 1, start := some 0, interval := some 1,
            base := some 100, volatility := some 2 }).1.getD 0
            ⟨0, 0, 0, 0, 0⟩)).close) ≤
      (((generateCandlestick sigmaHalf 0 0
          { points := some 1, start := some 0, interval := some 1,
            base := some 100, volatility := some 2 }).1.getD 0
            ⟨0, 0, 0, 0, 0⟩)).high :=
  (candlestick_high_low_envelope sigmaHalf 0 0
    { points := some 1, start := some 0, interval := some 1,
      base := some 100, volatility := some 2 }
    (fun _ => by norm_num [sigmaHalf]) (by norm_num)
    _ (by
      have h : (generateCandlestick sigmaHalf 0 0
          { points := some 1, start := some 0, interval := some 1,
            base := some 100, volatility := some 2 }).1 =
          [⟨0, 100, 203 / 2, 197 / 2, 100⟩] := by
        norm_num [generateCandlestick, genCandleAux, rand, sigmaHalf, round2,
          round_eq]
      rw [h]
      simp)).1

/-- Counterexample to claim C1 as stated: with `volatility = -2` (a legal
configuration — the generator clamps nothing) and every `Math.random()`
call returning 1/2, the single generated row has
`high = 98.5 < 100 = max(open, close)`. -/
theorem candlestick_high_low_neg_volatility_violation :
    ∃ c ∈ (generateCandlestick sigmaHalf 0 0
        { points := some 1, start := some 0, interval := some 1,
          base := some 100, volatility := some (-2) }).1,
      c.high < max c.openv c.close := by
  have h : (generateCandlestick sigmaHalf 0 0
      { points := some 1, start := some 0, interval := some 1,
        base := some 100, volatility := some (-2) }).1 =
      [⟨0, 100, 197 / 2, 203 / 2, 100⟩] := by
    norm_num [generateCandlestick, genCandleAux, rand, sigmaHalf, round2,
      round_eq]
  rw [h]
  exact ⟨_, List.mem_cons_self _ _, by norm_num⟩

theorem genCandleAux_close_open_floor (σ : ℕ → ℚ) (start interval v : ℚ) :
    ∀ (n i k : ℕ) (price : ℚ),
      (∀ c ∈ genCandleAux σ start interval v i n k price, 1 ≤ c.close) ∧
      (1 ≤ price → ∀ c ∈ genCandleAux σ start interval v i n k price,
        1 ≤ c.openv) := by
  intro n
  induction n with
  | zero => intro i k price; constructor <;> simp [genCandleAux]
  | succ m ih =>
      intro i k price
      have hp1 : (1 : ℚ) ≤ max 1 (price + rand σ k (-v) v) := le_max_left _ _
      constructor
      · intro c hc
        simp only [genCandleAux, List.mem_cons] at hc
        rcases hc with rfl | hc
        · show 1 ≤ round2 (max 1 (price + rand σ k (-v) v))
          calc (1 : ℚ) = round2 1 := round2_one.symm
            _ ≤ _ := round2_monotone hp1
        · exact (ih (i + 1) (k + 3) _).1 c hc
      · intro hprice c hc
        simp only [genCandleAux, List.mem_cons] at hc
        rcases hc with rfl | hc
        · show 1 ≤ round2 price
          calc (1 : ℚ) = round2 1 := round2_one.symm
            _ ≤ _ := round2_monotone hprice
        · exact (ih (i + 1) (k + 3) _).2 hp1 c hc

/-- Claim C9: for every configuration of `generateCandlestick` (including a
zero or negative `base`), every row's `close` is at least 1, and every row's
`open` from the second row onward is at least 1, because the price walk is
floored at 1 (`Math.max(1, …)`) after each step. -/
theorem candlestick_price_floor (σ : ℕ → ℚ) (now : ℚ) (k : ℕ) (cfg : Config) :
    (∀ c ∈ (generateCandlestick σ now k cfg).1, 1 ≤ c.close) ∧
    (∀ c ∈ (generateCandlestick σ now k cfg).1.drop 1, 1 ≤ c.openv) := by
  constructor
  · intro c hc
    exact (genCandleAux_close_open_floor σ _ _ _ (cfg.points.getD 120) 0 k
      (cfg.base.getD 100)).1 c hc
  · intro c hc
    revert hc
    show c ∈ (genCandleAux σ (cfg.start.getD (now - 120 * 86400000))
        (cfg.interval.getD 86400000) (cfg.volatility.getD 2) 0
        (cfg.points.getD 120) k (cfg.base.getD 100)).drop 1 → 1 ≤ c.openv
    cases hpts : cfg.points.getD 120 with
    | zero => simp [genCandleAux]
    | succ m =>
        intro hc
        simp only [genCandleAux, List.drop_succ_cons, List.drop_zero] at hc
        exact (genCandleAux_close_open_floor σ _ _ _ m 1 (k + 3) _).2
          (le_max_left _ _) c hc

/-- Witness for `candlestick_price_floor` at a concrete input
(`base = 0`, two rows: the second row's open and every close are ≥ 1). -/
theorem candlestick_price_floor_witness :
    1 ≤ (((generateCandlestick sigmaHalf 0 0
        { points := some 2, start := some 0, interval := some 1,
          base := some 0, volatility := some 2 }).1.drop 1).getD 0
          ⟨0, 0, 0, 0, 0⟩).openv :=
  (candlestick_price_floor sigmaHalf 0 0
    { points := some 2, start := some 0, interval := some 1,
      base := some 0, volatility := some 2 }).2 _ (by
    have h : (generateCandlestick sigmaHalf 0 0
        { points := some 2, start := some 0, interval := some 1,
          base := some 0, volatility := some 2 }).1 =
        [⟨0, 0, 5 / 2, -3 / 2, 1⟩, ⟨1, 1, 5 / 2, -1 / 2, 1⟩] := by
      norm_num [generateCandlestick, genCandleAux, rand, sigmaHalf, round2,
        round_eq]
    rw [h]
    simp)

/-- In a list sorted ascendingly, earlier entries are at most later ones
(`getD` version, for in-range indices). -/
theorem sorted_getD_mono {l : List ℚ} (h : l.Sorted (· ≤ ·)) {i j : ℕ}
    (hij : i ≤ j) (hj : j < l.length) : l.getD i 0 ≤ l.getD j 0 := by
  have hi : i < l.length := lt_of_le_of_lt hij hj
  rw [List.getD_eq_getElem l 0 hi, List.getD_eq_getElem l 0 hj]
  have h2 := h.rel_get_of_le (a := ⟨i, hi⟩) (b := ⟨j, hj⟩) (Fin.mk_le_mk.mpr hij)
  simpa using h2

/-- The first entry of a nonempty list is a member of it. -/
theorem getD_zero_mem {α : Type} (l : List α) (d : α) (h : l ≠ []) :
    l.getD 0 d ∈ l := by
  cases l with
  | nil => exact absurd rfl h
  | cons a t => simp [List.getD]

/-- The `samples` random draws of one boxplot group, at consecutive stream
indices starting at `k` (mockData.js line 80). -/
def boxDraws (σ : ℕ → ℚ) (k samples : ℕ) (mn mx : ℚ) : List ℚ :=
  (List.range samples).map fun j => rand σ (k + j) mn mx

/-- One boxplot group `{ name, value: [min, q1, median, q3, max] }`. -/
structure BoxGroup where
  name : String
  value : List ℚ
deriving DecidableEq

/-- `generateBoxplot` (mockData.js lines 77-90).  The JS ascending sort
`.sort((a, b) => a - b)` is modelled by `List.insertionSort (· ≤ ·)`;
`Math.floor(samples * 0.25)`, `Math.floor(samples * 0.5)` and
`Math.floor(samples * 0.75)` are exact in IEEE doubles and equal the
natural-number divisions `samples / 4`, `samples / 2`, `3 * samples / 4`. -/
def generateBoxplot (σ : ℕ → ℚ) (now : ℚ) (k : ℕ) (cfg : Config) :
    List BoxGroup × ℕ :=
  let groups := cfg.groups.getD 5
  let samples := cfg.samples.getD 30
  let mn := cfg.min.getD 0
  let mx := cfg.max.getD 100
  ((List.range groups).map fun g =>
    let arr := List.insertionSort (· ≤ ·)
      (boxDraws σ (k + g * samples) samples mn mx)
    { name := "G" ++ toString (g + 1),
      value := [round2 (arr.getD 0 0), round2 (arr.getD (samples / 4) 0),
                round2 (arr.getD (samples / 2) 0),
                round2 (arr.getD (3 * samples / 4) 0),
                round2 (arr.getD (arr.length - 1) 0)] },
   k + groups * samples)

/-- Claim C2: for every configuration with at least one sample, every group
produced by `generateBoxplot` carries `value = [min, q1, median, q3, max]`
read off a sorted permutation of that group's draws at the floor-based
indices `⌊samples/4⌋`, `⌊samples/2⌋`, `⌊3·samples/4⌋` (first and last sorted
element for min and max), and the five entries are ascending
(`min ≤ q1 ≤ median ≤ q3 ≤ max`). -/
theorem boxplot_quartiles_ordered (σ : ℕ → ℚ) (now : ℚ) (k : ℕ) (cfg : Config)
    (hs : 1 ≤ cfg.samples.getD 30) (g : BoxGroup)
    (hg : g ∈ (generateBoxplot σ now k cfg).1) :
    ∃ gi < cfg.groups.getD 5, ∃ arr : List ℚ,
      arr.Perm (boxDraws σ (k + gi * cfg.samples.getD 30) (cfg.samples.getD 30)
        (cfg.min.getD 0) (cfg.max.getD 100)) ∧
      arr.Sorted (· ≤ ·) ∧
      g.value = [round2 (arr.getD 0 0),
        round2 (arr.getD (cfg.samples.getD 30 / 4) 0),
        round2 (arr.getD (cfg.samples.getD 30 / 2) 0),
        round2 (arr.getD (3 * cfg.samples.getD 30 / 4) 0),
        round2 (arr.getD (arr.length - 1) 0)] ∧
      g.value.Chain' (· ≤ ·) := by
  simp only [generateBoxplot, List.mem_map, List.mem_range] at hg
  obtain ⟨gi, hgi, rfl⟩ := hg
  refine ⟨gi, hgi, List.insertionSort (· ≤ ·)
    (boxDraws σ (k + gi * cfg.samples.getD 30) (cfg.samples.getD 30)
      (cfg.min.getD 0) (cfg.max.getD 100)), List.perm_insertionSort _ _,
    List.sorted_insertionSort _ _, rfl, ?_⟩
  set s := cfg.samples.getD 30 with hsdef
  set arr := List.insertionSort (· ≤ ·)
    (boxDraws σ (k + gi * s) s (cfg.min.getD 0) (cfg.max.getD 100)) with harr
  have hlen : arr.length = s := by
    rw [harr, List.length_insertionSort]
    simp [boxDraws]
  have hsorted : arr.Sorted (· ≤ ·) := List.sorted_insertionSort _ _
  have c1 : arr.getD 0 0 ≤ arr.getD (s / 4) 0 :=
    sorted_getD_mono hsorted (by omega) (by omega)
  have c2 : arr.getD (s / 4) 0 ≤ arr.getD (s / 2) 0 :=
    sorted_getD_mono hsorted (by omega) (by omega)
  have c3 : arr.getD (s / 2) 0 ≤ arr.getD (3 * s / 4) 0 :=
    sorted_getD_mono hsorted (by omega) (by omega)
  have c4 : arr.getD (3 * s / 4) 0 ≤ arr.getD (arr.length - 1) 0 :=
    sorted_getD_mono hsorted (by omega) (by omega)
  simp only [List.chain'_cons, List.chain'_singleton, and_true]
  exact ⟨round2_monotone c1, round2_monotone c2, round2_monotone c3,
    round2_monotone c4⟩

/-- Witness for `boxplot_quartiles_ordered` at a concrete input
(one group, one sample). -/
theorem boxplot_quartiles_ordered_witness :
    ∃ gi < 1, ∃ arr : List ℚ,
      arr.Perm (boxDraws sigmaHalf (0 + gi * 1) 1 0 100) ∧
      arr.Sorted (· ≤ ·) ∧
      ((generateBoxplot sigmaHalf 0 0
          { groups := some 1, samples := some 1 }).1.getD 0 ⟨"", []⟩).value =
        [round2 (arr.getD 0 0), round2 (arr.getD (1 / 4) 0),
         round2 (arr.getD (1 / 2) 0), round2 (arr.getD (3 * 1 / 4) 0),
         round2 (arr.getD (arr.length - 1) 0)] ∧
      (((generateBoxplot sigmaHalf 0 0
          { groups := some 1, samples := some 1 }).1.getD 0
            ⟨"", []⟩).value).Chain' (· ≤ ·) :=
  boxplot_quartiles_ordered sigmaHalf 0 0
    { groups := some 1, samples := some 1 } (by norm_num) _
    (getD_zero_mem _ _ (by simp [generateBoxplot]))

/-- Node of the tree/treemap/sunburst structure (mockData.js lines 118-128):
a JS object with a `name`, a `children` array that is set only when nonempty,
and a numeric `value` that is set only on leaves. -/
inductive JTree where
  | node (name : String) (children : Option (List JTree)) (value : Option ℤ)

/-- The `children` field of a node (`none` when the JS object has none). -/
def JTree.childrenO : JTree → Option (List JTree)
  | .node _ c _ => c

/-- The `value` field of a node (`none` when the JS object has none). -/
def JTree.valueO : JTree → Option ℤ
  | .node _ _ v => v

/-- The list of children of a node (empty when the field is absent). -/
def JTree.kids (t : JTree) : List JTree := t.childrenO.getD []

/-- `buildTree(depth, breadth, level, prefix)` (mockData.js lines 118-129).
The `Array.from({length: breadth}, …)` loop is a fold over the child index
`i`, threading the random-draw index (one `randInt(10, 100)` draw per leaf)
through the accumulator. -/
def buildTree (σ : ℕ → ℚ) (b : ℕ) (pre : String) :
    ℕ → ℕ → ℕ → List JTree × ℕ
  | 0, _, k => ([], k)
  | d + 1, level, k =>
      (List.range b).foldl (fun acc i =>
        let name := pre ++ toString level ++ "-" ++ toString i
        let res := buildTree σ b pre d (level + 1) acc.2
        let value := if res.1.length = 0 then some (randInt σ res.2 10 100)
          else none
        let k2 := if res.1.length = 0 then res.2 + 1 else res.2
        let nd := JTree.node name
          (if res.1.length = 0 then none else some res.1) value
        (acc.1 ++ [nd], k2)) ([], k)

/-- `generateTree` (mockData.js line 130): a root named `root` whose
`children` field is always present and holds `buildTree(depth, breadth)`.
`generateTreemap` and `generateSunburst` (lines 131-132) are aliases of this
function. -/
def generateTree (σ : ℕ → ℚ) (now : ℚ) (k : ℕ) (cfg : Config) : JTree × ℕ :=
  let depth := cfg.depth.getD 3
  let breadth := cfg.breadth.getD 3
  let res := buildTree σ breadth "T" depth 0 k
  (JTree.node "root" (some res.1) none, res.2)

/-- A fold that appends exactly one element satisfying `P` per step produces
a list whose members all satisfy `P` (given the start did). -/
theorem foldl_append_forall {α β : Type} (P : α → Prop)
    (f : List α × ℕ → β → List α × ℕ)
    (hf : ∀ acc x, ∃ a, (f acc x).1 = acc.1 ++ [a] ∧ P a) :
    ∀ (l : List β) (acc : List α × ℕ), (∀ t ∈ acc.1, P t) →
      ∀ t ∈ (l.foldl f acc).1, P t := by
  intro l
  induction l with
  | nil => intro acc hacc t ht; exact hacc t ht
  | cons x xs ih =>
      intro acc hacc t ht
      refine ih (f acc x) ?_ t ht
      obtain ⟨a, ha, hPa⟩ := hf acc x
      intro u hu
      rw [ha] at hu
      rcases List.mem_append.1 hu with hu | hu
      · exact hacc u hu
      · simp at hu
        exact hu ▸ hPa

/-- A fold that appends exactly one element per step grows the list length
by the number of steps. -/
theorem foldl_append_length {α β : Type} (f : List α × ℕ → β → List α × ℕ)
    (hf : ∀ acc x, ∃ a, (f acc x).1 = acc.1 ++ [a]) :
    ∀ (l : List β) (acc : List α × ℕ),
      (l.foldl f acc).1.length = acc.1.length + l.length := by
  intro l
  induction l with
  | nil => intro acc; simp
  | cons x xs ih =>
      intro acc
      rw [List.foldl_cons, ih (f acc x)]
      obtain ⟨a, ha⟩ := hf acc x
      rw [ha]
      simp
      omega

theorem buildTree_length (σ : ℕ → ℚ) (b : ℕ) (pre : String) (d level k : ℕ) :
    (buildTree σ b pre (d + 1) level k).1.length = b := by
  show ((List.range b).foldl _ ([], k)).1.length = b
  rw [foldl_append_length _ (fun acc i => ⟨_, rfl⟩)]
  simp

/-- Every node produced at depth `d + 1` for `d ≥ 1` is internal: its
`children` field holds the `b` nodes of a depth-`d` subtree. -/
theorem buildTree_internal (σ : ℕ → ℚ) (b : ℕ) (pre : String) (d level k : ℕ)
    (hd : 0 < d) (hb : 0 < b) :
    ∀ t ∈ (buildTree σ b pre (d + 1) level k).1,
      ∃ l2 k2, t.childrenO = some (buildTree σ b pre d l2 k2).1 := by
  show ∀ t ∈ ((List.range b).foldl _ ([], k)).1, _
  refine foldl_append_forall _ _ (fun acc i => ⟨_, rfl, ?_⟩) _ _ (by simp)
  have hlen : (buildTree σ b pre d (level + 1) acc.2).1.length ≠ 0 := by
    obtain ⟨d', rfl⟩ := Nat.exists_eq_add_of_lt hd
    rw [buildTree_length]
    omega
  refine ⟨level + 1, acc.2, ?_⟩
  simp only [JTree.childrenO]
  rw [if_neg hlen]

/-- Every node produced at depth `1` is a leaf: no `children` field and a
numeric `value`. -/
theorem buildTree_leaf (σ : ℕ → ℚ) (b : ℕ) (pre : String) (level k : ℕ) :
    ∀ t ∈ (buildTree σ b pre 1 level k).1,
      t.childrenO = none ∧ ∃ v, t.valueO = some v := by
  show ∀ t ∈ ((List.range b).foldl _ ([], k)).1, _
  refine foldl_append_forall _ _ (fun acc i => ⟨_, rfl, ?_⟩) _ _ (by simp)
  have hlen : (buildTree σ b pre 0 (level + 1) acc.2).1.length = 0 := by
    simp [buildTree]
  constructor
  · simp only [JTree.childrenO]
    rw [if_pos hlen]
  · refine ⟨randInt σ (buildTree σ b pre 0 (level + 1) acc.2).2 10 100, ?_⟩
    simp only [JTree.valueO]
    rw [if_pos hlen]

/-- Claim C5, amended: `generateTree {depth := 3, breadth := 2}` returns a
root with exactly 2 children, each of which has exactly 2 children, each
grandchild again has exactly 2 children, and each great-grandchild is a leaf
carrying a numeric value and no children.  (As stated the claim fails: the
grandchildren are internal nodes, not leaves — `depth` counts the levels
below the root, so the leaves sit three levels down, see
`tree_depth3_grandchild_not_leaf`.) -/
theorem tree_depth3_breadth2_shape (σ : ℕ → ℚ) (now : ℚ) (k : ℕ) :
    ((generateTree σ now k { depth := some 3, breadth := some 2 }).1).kids.length
        = 2 ∧
    ∀ c ∈ ((generateTree σ now k { depth := some 3, breadth := some 2 }).1).kids,
      c.kids.length = 2 ∧ ∀ gc ∈ c.kids,
        gc.kids.length = 2 ∧ ∀ ggc ∈ gc.kids,
          ggc.childrenO = none ∧ ∃ v, ggc.valueO = some v := by
  have hroot : ((generateTree σ now k
      { depth := some 3, breadth := some 2 }).1).kids =
      (buildTree σ 2 "T" 3 0 k).1 := rfl
  constructor
  · rw [hroot]
    exact buildTree_length σ 2 "T" 2 0 k
  · intro c hc
    rw [hroot] at hc
    obtain ⟨l2, k2, hch⟩ := buildTree_internal σ 2 "T" 2 0 k (by omega)
      (by omega) c hc
    have hckids : c.kids = (buildTree σ 2 "T" 2 l2 k2).1 := by
      rw [JTree.kids, hch]
      rfl
    constructor
    · rw [hckids]
      exact buildTree_length σ 2 "T" 1 l2 k2
    · intro gc hgc
      rw [hckids] at hgc
      obtain ⟨l3, k3, hch3⟩ := buildTree_internal σ 2 "T" 1 l2 k2 (by omega)
        (by omega) gc hgc
      have hgckids : gc.kids = (buildTree σ 2 "T" 1 l3 k3).1 := by
        rw [JTree.kids, hch3]
        rfl
      constructor
      · rw [hgckids]
        exact buildTree_length σ 2 "T" 0 l3 k3
      · intro ggc hggc
        rw [hgckids] at hggc
        exact buildTree_leaf σ 2 "T" l3 k3 ggc hggc

/-- Witness for `tree_depth3_breadth2_shape` at a concrete input. -/
theorem tree_depth3_breadth2_shape_witness :
    ((generateTree sigmaZero 0 0
        { depth := some 3, breadth := some 2 }).1).kids.length = 2 :=
  (tree_depth3_breadth2_shape sigmaZero 0 0).1

/-- Counterexample to claim C5 as stated: at a concrete input, the first
grandchild of the root is not a leaf — it has a `children` field (holding two
further nodes) and carries no `value`. -/
theorem tree_depth3_grandchild_not_leaf :
    ((((((generateTree sigmaZero 0 0
          { depth := some 3, breadth := some 2 }).1).kids.getD 0
            (.node "" none none)).kids.getD 0
            (.node "" none none))).childrenO).isSome = true ∧
    ((((((generateTree sigmaZero 0 0
          { depth := some 3, breadth := some 2 }).1).kids.getD 0
            (.node "" none none)).kids.getD 0
            (.node "" none none))).valueO) = none ∧
    (((generateTree sigmaZero 0 0
        { depth := some 3, breadth := some 2 }).1).kids.getD 0
          (.node "" none none)).kids.length = 2 := by
  exact ⟨by decide, by decide, by decide⟩

/-- One funnel stage `{ name, value }` (value is `Math.round`ed, hence an
integer). -/
structure FunnelStage where
  name : String
  value : ℤ
deriving DecidableEq

/-- The loop body of `generateFunnel` (mockData.js lines 148-149): `i` is the
stage index, `r` the number of remaining stages, `k` the next random-draw
index, `current` the running value.  Each iteration pushes
`Math.round(current)` and then multiplies `current` by
`1 - drop * rand(0.8, 1.2)` (one draw). -/
def funnelAux (σ : ℕ → ℚ) (drop : ℚ) : ℕ → ℕ → ℕ → ℚ → List FunnelStage
  | _, 0, _, _ => []
  | i, r + 1, k, current =>
      { name := "Stage" ++ toString (i + 1), value := round current } ::
        funnelAux σ drop (i + 1) r (k + 1)
          (current * (1 - drop * rand σ k (4 / 5) (6 / 5)))

/-- `generateFunnel` (mockData.js lines 147-151). -/
def generateFunnel (σ : ℕ → ℚ) (now : ℚ) (k : ℕ) (cfg : Config) :
    List FunnelStage × ℕ :=
  let stages := cfg.stages.getD 5
  let startValue := cfg.startValue.getD 1000
  let drop := cfg.drop.getD (1 / 4)
  (funnelAux σ drop 0 stages k startValue, k + stages)

theorem funnelAux_length (σ : ℕ → ℚ) (drop : ℚ) :
    ∀ (r i k : ℕ) (cur : ℚ), (funnelAux σ drop i r k cur).length = r := by
  intro r
  induction r with
  | zero => intro i k cur; rfl
  | succ r' ih => intro i k cur; simp [funnelAux, ih]

/-- With a random source in `[0, 1)` and a drop ratio in `[0, 5/6]`, starting
from a nonnegative value, each funnel stage's value is at most the previous
stage's value. -/
theorem funnelAux_adjacent (σ : ℕ → ℚ) (drop : ℚ)
    (hσ : ∀ n, 0 ≤ σ n ∧ σ n < 1) (hd0 : 0 ≤ drop) (hd1 : drop ≤ 5 / 6) :
    ∀ (r i k : ℕ) (cur : ℚ), 0 ≤ cur → ∀ j, j + 1 < r →
      ((funnelAux σ drop i r k cur).getD (j + 1) ⟨"", 0⟩).value ≤
        ((funnelAux σ drop i r k cur).getD j ⟨"", 0⟩).value := by
  intro r
  induction r with
  | zero => intro i k cur _ j hj; omega
  | succ r' ih =>
      intro i k cur hcur j hj
      have hrand : 4 / 5 ≤ rand σ k (4 / 5) (6 / 5) ∧
          rand σ k (4 / 5) (6 / 5) < 6 / 5 := by
        unfold rand
        obtain ⟨h0, h1⟩ := hσ k
        constructor <;> nlinarith
      have hf0 : 0 ≤ 1 - drop * rand σ k (4 / 5) (6 / 5) := by nlinarith
      have hf1 : 1 - drop * rand σ k (4 / 5) (6 / 5) ≤ 1 := by nlinarith
      have hcur' : 0 ≤ cur * (1 - drop * rand σ k (4 / 5) (6 / 5)) :=
        mul_nonneg hcur hf0
      have hle : cur * (1 - drop * rand σ k (4 / 5) (6 / 5)) ≤ cur := by
        nlinarith
      cases j with
      | zero =>
          cases r' with
          | zero => omega
          | succ r'' =>
              simp only [funnelAux, List.getD_cons_succ, List.getD_cons_zero]
              exact roundRat_mono hle
      | succ j' =>
          simp only [funnelAux, List.getD_cons_succ]
          exact ih (i + 1) (k + 1) _ hcur' j' (by omega)

/-- The configuration `{stages: 5, startValue: 1000, drop: 0.25}` of
claim C6 (these are also the generator's defaults). -/
def funnelCfg : Config :=
  { stages := some 5, startValue := some 1000, drop := some (1 / 4) }

/-- Claim C6: `generateFunnel {stages := 5, startValue := 1000, drop := 1/4}`
returns exactly 5 stages, the first stage's value equals 1000, and for every
consecutive pair of stages the later value is at most the earlier one
(the random source being in `[0, 1)`, per `Math.random`). -/
theorem funnel_5stages_monotone (σ : ℕ → ℚ) (now : ℚ) (k : ℕ)
    (hσ : ∀ n, 0 ≤ σ n ∧ σ n < 1) :
    ((generateFunnel σ now k funnelCfg).1).length = 5 ∧
    (((generateFunnel σ now k funnelCfg).1).getD 0 ⟨"", 0⟩).value = 1000 ∧
    ∀ j, j + 1 < 5 →
      (((generateFunnel σ now k funnelCfg).1).getD (j + 1) ⟨"", 0⟩).value ≤
        (((generateFunnel σ now k funnelCfg).1).getD j ⟨"", 0⟩).value := by
  refine ⟨funnelAux_length σ (1 / 4) 5 0 k 1000, ?_, ?_⟩
  · show (round (1000 : ℚ) : ℤ) = 1000
    norm_num [round_eq]
  · intro j hj
    exact funnelAux_adjacent σ (1 / 4) hσ (by norm_num) (by norm_num) 5 0 k
      1000 (by norm_num) j hj

/-- Witness for `funnel_5stages_monotone` at the concrete random stream that
always returns 1/2. -/
theorem funnel_5stages_monotone_witness :
    ((generateFunnel sigmaHalf 0 0 funnelCfg).1).length = 5 ∧
    (((generateFunnel sigmaHalf 0 0 funnelCfg).1).getD 0 ⟨"", 0⟩).value
        = 1000 ∧
    ∀ j, j + 1 < 5 →
      (((generateFunnel sigmaHalf 0 0 funnelCfg).1).getD (j + 1)
          ⟨"", 0⟩).value ≤
        (((generateFunnel sigmaHalf 0 0 funnelCfg).1).getD j ⟨"", 0⟩).value :=
  funnel_5stages_monotone sigmaHalf 0 0
    (fun n => ⟨by norm_num [sigmaHalf], by norm_num [sigmaHalf]⟩)

/-- One graph node.  The JS id string `N<i>` and name `Node <i>` are
represented by the numeric index `idx` (the map `i ↦ "N" ++ repr i` is
injective, so link structure and reachability transfer verbatim). -/
structure GNode where
  idx : ℕ
  value : ℤ
deriving DecidableEq

/-- One `{source, target, value}` graph link, endpoints by node index. -/
structure GLink where
  source : ℕ
  target : ℕ
  value : ℤ
deriving DecidableEq

/-- The `{nodes, links}` output of `generateGraph`. -/
structure GraphData where
  nodes : List GNode
  links : List GLink
deriving DecidableEq

/-- The spanning links of `generateGraph` (mockData.js line 110): for each
`i ∈ [1, nodes)` a link from `N(randInt(0, i-1))` to `N(i)`; the iteration
for `i = j + 1` consumes two draws (the source, then `randInt(1, 5)` for the
link value). -/
def graphSpan (σ : ℕ → ℚ) (nodes k : ℕ) : List GLink :=
  (List.range (nodes - 1)).map fun j =>
    { source := (randInt σ (k + 2 * j) 0 (j : ℚ)).toNat,
      target := j + 1,
      value := randInt σ (k + 2 * j + 1) 1 5 }

/-- The extra-link loop of `generateGraph` (mockData.js lines 111-113): `m`
remaining iterations; each draws two endpoints and keeps the link only when
they differ (then also drawing its value), threading the draw index. -/
def graphExtra (σ : ℕ → ℚ) (nodes : ℕ) : ℕ → ℕ → List GLink × ℕ
  | 0, k => ([], k)
  | m + 1, k =>
      let a := (randInt σ k 0 ((nodes : ℚ) - 1)).toNat
      let b := (randInt σ (k + 1) 0 ((nodes : ℚ) - 1)).toNat
      if a ≠ b then
        let res := graphExtra σ nodes m (k + 3)
        ({ source := a, target := b, value := randInt σ (k + 2) 1 5 } :: res.1,
          res.2)
      else
        graphExtra σ nodes m (k + 2)

/-- `generateGraph` (mockData.js lines 107-115): `nodes` node-value draws,
then the spanning links, then `extraLinks` iterations of extra links. -/
def generateGraph (σ : ℕ → ℚ) (now : ℚ) (k : ℕ) (cfg : Config) :
    GraphData × ℕ :=
  let nodes := cfg.nodes.getD 30
  let extraLinks := cfg.extraLinks.getD 20
  let nodeArr := (List.range nodes).map fun i =>
    ({ idx := i, value := randInt σ (k + i) 1 10 } : GNode)
  let span := graphSpan σ nodes (k + nodes)
  let extra := graphExtra σ nodes extraLinks (k + nodes + 2 * (nodes - 1))
  ({ nodes := nodeArr, links := span ++ extra.1 }, extra.2)

/-- A directed single step along the link list. -/
def HasLink (links : List GLink) (x y : ℕ) : Prop :=
  ∃ l ∈ links, l.source = x ∧ l.target = y

/-- Reachability through the link list: the reflexive-transitive closure of
single links. -/
def Reach (links : List GLink) : ℕ → ℕ → Prop :=
  Relation.ReflTransGen (HasLink links)

/-- Claim C7: for every configuration, every node index below the node count
is reachable from node 0 through the link list of `generateGraph` (each node
`i ≥ 1` receives a spanning link from a strictly smaller index, given the
`[0, 1)` range of `Math.random`). -/
theorem graph_connected (σ : ℕ → ℚ) (now : ℚ) (k : ℕ) (cfg : Config)
    (hσ : ∀ n, 0 ≤ σ n ∧ σ n < 1) :
    ∀ i < cfg.nodes.getD 30, Reach ((generateGraph σ now k cfg).1.links) 0 i := by
  intro i
  induction i using Nat.strong_induction_on with
  | _ i ih =>
      intro hi
      cases i with
      | zero => exact Relation.ReflTransGen.refl
      | succ j =>
          have hspan : (⟨
              (randInt σ (k + cfg.nodes.getD 30 + 2 * j) 0 (j : ℚ)).toNat,
              j + 1,
              randInt σ (k + cfg.nodes.getD 30 + 2 * j + 1) 1 5⟩
                : GLink) ∈ (generateGraph σ now k cfg).1.links := by
            show _ ∈ graphSpan σ (cfg.nodes.getD 30) (k + cfg.nodes.getD 30)
              ++ _
            refine List.mem_append_left _ ?_
            exact List.mem_map.2 ⟨j, List.mem_range.2 (by omega), rfl⟩
          have hsrc : (randInt σ (k + cfg.nodes.getD 30 + 2 * j) 0
              (j : ℚ)).toNat < j + 1 := by
            have hfl : randInt σ (k + cfg.nodes.getD 30 + 2 * j) 0 (j : ℚ) <
                (j : ℤ) + 1 := by
              unfold randInt rand
              rw [Int.floor_lt]
              obtain ⟨h0, h1⟩ := hσ (k + cfg.nodes.getD 30 + 2 * j)
              push_cast
              have hj : (0 : ℚ) ≤ (j : ℚ) := Nat.cast_nonneg j
              nlinarith
            omega
          exact Relation.ReflTransGen.tail (ih _ hsrc (by omega))
            ⟨_, hspan, rfl, rfl⟩

/-- The configuration `{nodes: 2, extraLinks: 0}` used to instantiate
`graph_connected`. -/
def graphCfg : Config := { nodes := some 2, extraLinks := some 0 }

/-- Witness for `graph_connected` at a concrete input: node 1 of a 2-node
graph is reachable from node 0. -/
theorem graph_connected_witness :
    Reach ((generateGraph sigmaZero 0 0 graphCfg).1.links) 0 1 :=
  graph_connected sigmaZero 0 0 graphCfg
    (fun n => ⟨by norm_num [sigmaZero], by norm_num [sigmaZero]⟩) 1
    (by norm_num [graphCfg])

/-- A pixel-space rectangle as passed to `ctx.fillRect(x, y, w, h)` by the
bar plugin, all four arguments `Math.round`ed. -/
structure Rect where
  x : ℤ
  y : ℤ
  w : ℤ
  h : ℤ
deriving DecidableEq

/-- Two rectangles overlap in x when their horizontal extents properly
intersect. -/
def overlapX (r1 r2 : Rect) : Prop :=
  r1.x < r2.x + r2.w ∧ r2.x < r1.x + r1.w

/-- The rectangles drawn by the `draw` hook of `barPlugin` (UPlotDemo.jsx
lines 44-89), given the plot's x/y value→pixel transforms, the length of
`data[0]` and the series value arrays `data[1..]` (`none` marks a `null`
entry, which the plugin skips).  `gap` is one category's pixel span
(`valToPos(1) - valToPos(0)` when there are at least two categories, else
60); the group spans 80% of it; series `s` (0-based, the source's `s - 1`)
draws a rectangle of width `barWidth - 2` at offset `s * barWidth` from the
group's left edge, all four `fillRect` arguments rounded. -/
def barPluginRects (toPixX toPixY : ℚ → ℚ) (xlen : ℕ)
    (seriesData : List (List (Option ℚ))) : List Rect :=
  if seriesData.length = 0 then [] else
  if xlen = 0 then [] else
  let gap := if 1 < xlen then toPixX 1 - toPixX 0 else 60
  let groupWidth := gap * (4 / 5)
  let barWidth := groupWidth / (seriesData.length : ℚ)
  (List.range xlen).flatMap fun i =>
    let xPos := toPixX (i : ℚ)
    let leftStart := xPos - groupWidth / 2
    (List.range seriesData.length).filterMap fun s =>
      match (seriesData.getD s []).getD i none with
      | none => none
      | some val =>
          let yPos := toPixY val
          let yZero := toPixY 0
          let ht := |yZero - yPos|
          some ⟨round (leftStart + (s : ℚ) * barWidth),
                round (min yPos yZero), round (barWidth - 2), round ht⟩

theorem round_add_ge (a b : ℚ) : round a + round b - 1 ≤ round (a + b) := by
  rw [round_eq, round_eq, round_eq, Int.le_floor]
  have h1 : (⌊a + 1 / 2⌋ : ℚ) ≤ a + 1 / 2 := Int.floor_le _
  have h2 : (⌊b + 1 / 2⌋ : ℚ) ≤ b + 1 / 2 := Int.floor_le _
  push_cast
  linarith

theorem round_sub_two (x : ℚ) : round (x - 2) = round x - 2 := by
  simp

/-- Two bar rectangles of the same group, `bw` apart in unrounded position
and both of rounded width `bw - 2`, never overlap in x. -/
theorem barPluginRects_no_overlap (L bw : ℚ) (y1 y2 h1 h2 : ℤ) :
    ¬ overlapX ⟨round L, y1, round (bw - 2), h1⟩
      ⟨round (L + bw), y2, round (bw - 2), h2⟩ := by
  intro hov
  have h2' := hov.2
  simp only at h2'
  have hsub : round (bw - 2) = round bw - 2 := round_sub_two bw
  have hlow := round_add_ge L bw
  omega

/-- Two bar rectangles whose unrounded left edges are `bw` apart, the first
of rounded width `bw - 2`, never overlap in x (rounding loses less than the
2-pixel gap the plugin leaves between bars). -/
theorem no_overlap_of_eq (L bw : ℚ) (r1 r2 : Rect)
    (h1x : r1.x = round L) (h1w : r1.w = round (bw - 2))
    (h2x : r2.x = round (L + bw)) : ¬ overlapX r1 r2 := by
  intro hov
  have h2' := hov.2
  rw [h1x, h1w, h2x, round_sub_two] at h2'
  have hlow := round_add_ge L bw
  omega

set_option maxHeartbeats 1600000 in
/-- Claim C3: rendering the bar archetype with 2 series and 3 categories
(all six values present) through an affine x transform of positive category
pixel span `g` emits exactly 6 filled rectangles; the rectangle of series
`s` (0 or 1) in category `i` sits at the rounded position
`toPixX i - groupWidth / 2 + s * barWidth` with width
`round (barWidth - 2)`, where `groupWidth = g * 4/5` (80% of one category's
pixel span) and `barWidth = groupWidth / 2` (group width over the number of
series), the unrounded bar `[s * barWidth, s * barWidth + barWidth]` lying
inside the group span `[0, groupWidth]`; and within each category group the
two rectangles do not overlap in x. -/
theorem bar_2series_3cats (x0 g : ℚ) (toPixY : ℚ → ℚ) (a b c d e f : ℚ)
    (hg : 0 < g) :
    ((barPluginRects (fun v => x0 + g * v) toPixY 3
        [[some a, some b, some c], [some d, some e, some f]]).length = 6) ∧
    (∀ i, i < 3 → ∀ s, s < 2 →
      ((barPluginRects (fun v => x0 + g * v) toPixY 3
          [[some a, some b, some c], [some d, some e, some f]]).getD
            (2 * i + s) ⟨0, 0, 0, 0⟩).x =
          round ((x0 + g * (i : ℚ)) - g * (4 / 5) / 2 +
            (s : ℚ) * (g * (4 / 5) / 2)) ∧
      ((barPluginRects (fun v => x0 + g * v) toPixY 3
          [[some a, some b, some c], [some d, some e, some f]]).getD
            (2 * i + s) ⟨0, 0, 0, 0⟩).w = round (g * (4 / 5) / 2 - 2) ∧
      0 ≤ (s : ℚ) * (g * (4 / 5) / 2) ∧
      (s : ℚ) * (g * (4 / 5) / 2) + g * (4 / 5) / 2 ≤ g * (4 / 5)) ∧
    (∀ i, i < 3 → ¬ overlapX
      ((barPluginRects (fun v => x0 + g * v) toPixY 3
          [[some a, some b, some c], [some d, some e, some f]]).getD
            (2 * i) ⟨0, 0, 0, 0⟩)
      ((barPluginRects (fun v => x0 + g * v) toPixY 3
          [[some a, some b, some c], [some d, some e, some f]]).getD
            (2 * i + 1) ⟨0, 0, 0, 0⟩)) := by
  have hr3 : List.range 3 = [0, 1, 2] := rfl
  have hr2 : List.range 2 = [0, 1] := rfl
  have hchar : ∀ i, i < 3 → ∀ s, s < 2 →
      ((barPluginRects (fun v => x0 + g * v) toPixY 3
          [[some a, some b, some c], [some d, some e, some f]]).getD
            (2 * i + s) ⟨0, 0, 0, 0⟩).x =
          round ((x0 + g * (i : ℚ)) - g * (4 / 5) / 2 +
            (s : ℚ) * (g * (4 / 5) / 2)) ∧
      ((barPluginRects (fun v => x0 + g * v) toPixY 3
          [[some a, some b, some c], [some d, some e, some f]]).getD
            (2 * i + s) ⟨0, 0, 0, 0⟩).w = round (g * (4 / 5) / 2 - 2) := by
    intro i hi s hs
    interval_cases i <;> interval_cases s <;> refine ⟨?_, ?_⟩ <;>
      simp [barPluginRects, hr3, hr2]
  refine ⟨by simp [barPluginRects, hr3, hr2], ?_, ?_⟩
  · intro i hi s hs
    obtain ⟨hx, hw⟩ := hchar i hi s hs
    refine ⟨hx, hw, ?_, ?_⟩
    · interval_cases s <;> push_cast <;> nlinarith [hg.le]
    · interval_cases s <;> push_cast <;> nlinarith [hg.le]
  · intro i hi
    obtain ⟨h0x, h0w⟩ := hchar i hi 0 (by norm_num)
    obtain ⟨h1x, h1w⟩ := hchar i hi 1 (by norm_num)
    refine no_overlap_of_eq ((x0 + g * (i : ℚ)) - g * (4 / 5) / 2 +
      (((0 : ℕ) : ℚ)) * (g * (4 / 5) / 2)) (g * (4 / 5) / 2) _ _ ?_ h0w ?_
    · exact h0x
    · rw [h1x]
      congr 1
      push_cast
      ring

/-- Witness for `bar_2series_3cats` at a concrete input (`toPixX v = 50 +
40 v`, identity y transform, six concrete values). -/
theorem bar_2series_3cats_witness :
    ((barPluginRects (fun v => 50 + 40 * v) (fun v => v) 3
        [[some 10, some 20, some 30], [some 40, some 50, some 60]]).length
          = 6) ∧
    (∀ i, i < 3 → ∀ s, s < 2 →
      ((barPluginRects (fun v => 50 + 40 * v) (fun v => v) 3
          [[some 10, some 20, some 30], [some 40, some 50, some 60]]).getD
            (2 * i + s) ⟨0, 0, 0, 0⟩).x =
          round ((50 + 40 * (i : ℚ)) - 40 * (4 / 5) / 2 +
            (s : ℚ) * (40 * (4 / 5) / 2)) ∧
      ((barPluginRects (fun v => 50 + 40 * v) (fun v => v) 3
          [[some 10, some 20, some 30], [some 40, some 50, some 60]]).getD
            (2 * i + s) ⟨0, 0, 0, 0⟩).w = round ((40 : ℚ) * (4 / 5) / 2 - 2) ∧
      0 ≤ (s : ℚ) * (40 * (4 / 5) / 2) ∧
      (s : ℚ) * (40 * (4 / 5) / 2) + 40 * (4 / 5) / 2 ≤ 40 * (4 / 5)) ∧
    (∀ i, i < 3 → ¬ overlapX
      ((barPluginRects (fun v => 50 + 40 * v) (fun v => v) 3
          [[some 10, some 20, some 30], [some 40, some 50, some 60]]).getD
            (2 * i) ⟨0, 0, 0, 0⟩)
      ((barPluginRects (fun v => 50 + 40 * v) (fun v => v) 3
          [[some 10, some 20, some 30], [some 40, some 50, some 60]]).getD
            (2 * i + 1) ⟨0, 0, 0, 0⟩)) :=
  bar_2series_3cats 50 40 (fun v => v) 10 20 30 40 50 60 (by norm_num)

/-- The `{value, min, max}` output of `generateGauge`. -/
structure GaugeData where
  value : ℚ
  min : ℚ
  max : ℚ
deriving DecidableEq

/-- The plot area's bounding box (`u.bbox`). -/
structure BBox where
  left : ℚ
  top : ℚ
  width : ℚ
  height : ℚ
deriving DecidableEq

/-- A drawing command of the gauge plugin: a filled rectangle, or the
centred text (whose rendered string `value.toFixed(1) + " / " + max` is
represented by its numeric payload). -/
inductive GaugeCmd where
  | fillRect (x y w h : ℚ)
  | text (value maxv x y : ℚ)
deriving DecidableEq

/-- The width argument of a `fillRect` command (0 for text). -/
def GaugeCmd.rectW : GaugeCmd → ℚ
  | .fillRect _ _ w _ => w
  | .text _ _ _ _ => 0

/-- The drawing commands of the `draw` hook of `gaugePlugin` (UPlotDemo.jsx
lines 301-333): a background bar spanning the full bbox width, a foreground
bar of width `bbox.width * (value - min) / (max - min)`, and the centred
text. -/
def gaugePlugin (bbox : BBox) (raw : GaugeData) : List GaugeCmd :=
  let percent := (raw.value - raw.min) / (raw.max - raw.min)
  let barHeight : ℚ := 30
  let y := bbox.top + bbox.height / 2 - barHeight / 2
  [GaugeCmd.fillRect bbox.left y bbox.width barHeight,
   GaugeCmd.fillRect bbox.left y (bbox.width * percent) barHeight,
   GaugeCmd.text raw.value raw.max (bbox.left + bbox.width / 2)
     (y + barHeight / 2)]

/-- Claim C4: rendering a gauge with `{value: 50, min: 0, max: 100}` against
a plot surface whose bounding box is 200 pixels wide draws a foreground bar
(the second `fillRect`) exactly 100 pixels wide, i.e. the bounding-box width
scaled by `(value - min) / (max - min)`. -/
theorem gauge_half_width (l t h : ℚ) :
    ((gaugePlugin ⟨l, t, 200, h⟩ ⟨50, 0, 100⟩).getD 1
        (.fillRect 0 0 0 0)).rectW = 100 ∧
    (100 : ℚ) = 200 * ((50 - 0) / (100 - 0)) := by
  constructor
  · show (200 : ℚ) * ((50 - 0) / (100 - 0)) = 100
    norm_num
  · norm_num

/-- One line series `{name, data: [[timestamp, value], …]}`. -/
structure LineSeries where
  name : String
  data : List (ℚ × ℚ)
deriving DecidableEq

/-- The inner loop of `generateLine` (mockData.js lines 14-18): one bounded
random-walk step per point (one draw each), the state clamped into
`[mn, mx]` before being pushed and carried. -/
def lineWalk (σ : ℕ → ℚ) (startT interval mn mx vol : ℚ) :
    ℕ → ℕ → ℕ → ℚ → List (ℚ × ℚ)
  | _, 0, _, _ => []
  | i, n + 1, k, base =>
      let b1 := min (max (base + rand σ k (-vol) vol) mn) mx
      (startT + (i : ℚ) * interval, round2 b1) ::
        lineWalk σ startT interval mn mx vol (i + 1) n (k + 1) b1

/-- The outer loop of `generateLine` (mockData.js lines 11-20): series `s`
draws its random start (one draw), then `points` walk steps. -/
def lineOuter (σ : ℕ → ℚ) (startT interval mn mx vol : ℚ) (points : ℕ) :
    ℕ → ℕ → ℕ → List LineSeries
  | _, 0, _ => []
  | s, m + 1, k =>
      { name := "L" ++ toString (s + 1),
        data := lineWalk σ startT interval mn mx vol 0 points (k + 1)
          (rand σ k mn mx) } ::
        lineOuter σ startT interval mn mx vol points (s + 1) m (k + 1 + points)

/-- `generateLine` (mockData.js lines 9-22). -/
def generateLine (σ : ℕ → ℚ) (now : ℚ) (k : ℕ) (cfg : Config) :
    List LineSeries × ℕ :=
  let series := cfg.series.getD 2
  let points := cfg.points.getD 200
  let startT := cfg.start.getD (now - (points : ℚ) * 60000)
  let interval := cfg.interval.getD 60000
  let mn := cfg.min.getD 0
  let mx := cfg.max.getD 100
  let vol := cfg.volatility.getD 10
  (lineOuter σ startT interval mn mx vol points 0 series k,
    k + series * (1 + points))

/-- One bar series `{name, data}`. -/
structure BarSeries where
  name : String
  data : List ℚ
deriving DecidableEq

/-- The `{categories, series}` output of `generateBar`. -/
structure BarData where
  categories : List String
  series : List BarSeries
deriving DecidableEq

/-- `generateBar` (mockData.js lines 25-32): series `s` draws one value per
category, in category order. -/
def generateBar (σ : ℕ → ℚ) (now : ℚ) (k : ℕ) (cfg : Config) :
    BarData × ℕ :=
  let categories := cfg.categories.getD 8
  let series := cfg.series.getD 2
  let mn := cfg.min.getD 10
  let mx := cfg.max.getD 120
  ({ categories := (List.range categories).map fun i =>
       "C" ++ toString (i + 1),
     series := (List.range series).map fun s =>
       { name := "S" ++ toString (s + 1),
         data := (List.range categories).map fun c =>
           round2 (rand σ (k + s * categories + c) mn mx) } },
   k + series * categories)

/-- One `{name, value}` entry (pie slices and pictorial bars). -/
structure PieSlice where
  name : String
  value : ℚ
deriving DecidableEq

/-- `generatePie` (mockData.js lines 35-37). -/
def generatePie (σ : ℕ → ℚ) (now : ℚ) (k : ℕ) (cfg : Config) :
    List PieSlice × ℕ :=
  let slices := cfg.slices.getD 6
  let mn := cfg.min.getD 10
  let mx := cfg.max.getD 200
  ((List.range slices).map fun i =>
    { name := "Slice" ++ toString (i + 1),
      value := round2 (rand σ (k + i) mn mx) }, k + slices)

/-- `generateScatter` (mockData.js lines 40-51): `clusters` centers (two
draws each), then two jitter draws per point around center `i % clusters`.
(For `clusters = 0` the JS code faults destructuring `centers[i % 0]`; the
model returns center `(0, 0)` there — no claim exercises that case.) -/
def generateScatter (σ : ℕ → ℚ) (now : ℚ) (k : ℕ) (cfg : Config) :
    List (ℚ × ℚ) × ℕ :=
  let points := cfg.points.getD 500
  let clusters := cfg.clusters.getD 3
  let spread := cfg.spread.getD 50
  let centerRange := cfg.centerRange.getD 200
  let centers := (List.range clusters).map fun j =>
    (rand σ (k + 2 * j) (-centerRange) centerRange,
     rand σ (k + 2 * j + 1) (-centerRange) centerRange)
  ((List.range points).map fun i =>
    let c := centers.getD (i % clusters) (0, 0)
    (round2 (c.1 + rand σ (k + 2 * clusters + 2 * i) (-spread) spread),
     round2 (c.2 + rand σ (k + 2 * clusters + 2 * i + 1) (-spread) spread)),
   k + 2 * clusters + 2 * points)

/-- One radar indicator `{name, max}`. -/
structure RadarIndicator where
  name : String
  max : ℚ
deriving DecidableEq

/-- One radar series `{name, value}`. -/
structure RadarSeries where
  name : String
  value : List ℚ
deriving DecidableEq

/-- The `{indicators, series}` output of `generateRadar`. -/
structure RadarData where
  indicators : List RadarIndicator
  series : List RadarSeries
deriving DecidableEq

/-- `generateRadar` (mockData.js lines 70-74). -/
def generateRadar (σ : ℕ → ℚ) (now : ℚ) (k : ℕ) (cfg : Config) :
    RadarData × ℕ :=
  let axes := cfg.axes.getD 6
  let series := cfg.series.getD 3
  let mn := cfg.min.getD 0
  let mx := cfg.max.getD 100
  ({ indicators := (List.range axes).map fun i =>
       { name := "Dim" ++ toString (i + 1), max := mx },
     series := (List.range series).map fun s =>
       { name := "R" ++ toString (s + 1),
         value := (List.range axes).map fun a =>
           round2 (rand σ (k + s * axes + a) mn mx) } },
   k + series * axes)

/-- The `{xLabels, yLabels, data}` output of `generateHeatmap`; each cell is
`(xIndex, yIndex, value)`. -/
structure HeatmapData where
  xLabels : List String
  yLabels : List String
  data : List (ℕ × ℕ × ℚ)
deriving DecidableEq

/-- `generateHeatmap` (mockData.js lines 93-101): cells pushed row-major
(outer loop over the y labels, inner over the x labels).  `generateMatrix`
(line 104) is an alias of this function. -/
def generateHeatmap (σ : ℕ → ℚ) (now : ℚ) (k : ℕ) (cfg : Config) :
    HeatmapData × ℕ :=
  let x := cfg.x.getD 12
  let y := cfg.y.getD 7
  let mn := cfg.min.getD 0
  let mx := cfg.max.getD 100
  ({ xLabels := (List.range x).map fun i => "X" ++ toString (i + 1),
     yLabels := (List.range y).map fun i => "Y" ++ toString (i + 1),
     data := (List.range y).flatMap fun yi => (List.range x).map fun xi =>
       (xi, yi, round2 (rand σ (k + yi * x + xi) mn mx)) },
   k + y * x)

/-- One sankey node `{name}`. -/
structure SNode where
  name : String
deriving DecidableEq

/-- One sankey link `{source, target, value}` (ids as in the JS output). -/
structure SLink where
  source : String
  target : String
  value : ℤ
deriving DecidableEq

/-- The `{nodes, links}` output of `generateSankey`. -/
structure SankeyData where
  nodes : List SNode
  links : List SLink
deriving DecidableEq

/-- The `while (linkArr.length < links)` loop of `generateSankey`
(mockData.js lines 138-142): every iteration pushes exactly one link (three
draws), so the loop runs exactly `links` times. -/
def sankeyLinks (σ : ℕ → ℚ) (nodes : ℕ) (mn mx : ℚ) : ℕ → ℕ → List SLink
  | 0, _ => []
  | m + 1, k =>
      let s := randInt σ k 0 ((nodes : ℚ) - 2)
      let t := randInt σ (k + 1) ((s : ℚ) + 1) ((nodes : ℚ) - 1)
      { source := "N" ++ toString s, target := "N" ++ toString t,
        value := randInt σ (k + 2) mn mx } ::
        sankeyLinks σ nodes mn mx m (k + 3)

/-- `generateSankey` (mockData.js lines 135-144). -/
def generateSankey (σ : ℕ → ℚ) (now : ℚ) (k : ℕ) (cfg : Config) :
    SankeyData × ℕ :=
  let nodes := cfg.nodes.getD 8
  let links := cfg.links.getD 15
  let mn := cfg.min.getD 1
  let mx := cfg.max.getD 50
  ({ nodes := (List.range nodes).map fun i => { name := "N" ++ toString i },
     links := sankeyLinks σ nodes mn mx links k }, k + 3 * links)

/-- `generateGauge` (mockData.js lines 154-156). -/
def generateGauge (σ : ℕ → ℚ) (now : ℚ) (k : ℕ) (cfg : Config) :
    GaugeData × ℕ :=
  let mn := cfg.min.getD 0
  let mx := cfg.max.getD 100
  ({ value := round2 (rand σ k mn mx), min := mn, max := mx }, k + 1)

/-- `generatePictorialBar` (mockData.js lines 159-162): the same
`{name, value}` shape as a pie slice. -/
def generatePictorialBar (σ : ℕ → ℚ) (now : ℚ) (k : ℕ) (cfg : Config) :
    List PieSlice × ℕ :=
  let categories := cfg.categories.getD 6
  let mn := cfg.min.getD 10
  let mx := cfg.max.getD 150
  ((List.range categories).map fun i =>
    { name := "P" ++ toString (i + 1),
      value := round2 (rand σ (k + i) mn mx) }, k + categories)

/-- `generateCalendar` (mockData.js lines 165-172).  Each entry's ISO date
string `d.toISOString().slice(0, 10)` is represented by the day timestamp
`startDate + i * 86400000` it is formatted from. -/
def generateCalendar (σ : ℕ → ℚ) (now : ℚ) (k : ℕ) (cfg : Config) :
    List (ℚ × ℚ) × ℕ :=
  let days := cfg.days.getD 90
  let startDate := cfg.startDate.getD (now - 90 * 86400000)
  let mn := cfg.min.getD 0
  let mx := cfg.max.getD 100
  ((List.range days).map fun (i : ℕ) =>
    (startDate + (i : ℚ) * 86400000, round2 (rand σ (k + i) mn mx)),
   k + days)

/-- The canonical data produced by one generator, tagged by archetype family
(aliased archetypes share the underlying generator and hence the shape). -/
inductive MockData where
  | line (d : List LineSeries)
  | bar (d : BarData)
  | pie (d : List PieSlice)
  | scatter (d : List (ℚ × ℚ))
  | candlestick (d : List Candle)
  | radar (d : RadarData)
  | boxplot (d : List BoxGroup)
  | heatmap (d : HeatmapData)
  | graph (d : GraphData)
  | tree (d : JTree)
  | sankey (d : SankeyData)
  | funnel (d : List FunnelStage)
  | gauge (d : GaugeData)
  | pictorialBar (d : List PieSlice)
  | calendar (d : List (ℚ × ℚ))

/-- The type of a generator as registered in the dispatch table. -/
def GenFun : Type := (ℕ → ℚ) → ℚ → ℕ → Config → MockData × ℕ

/-- `generateLine` as a registered generator. -/
def genLineW : GenFun := fun σ now k cfg =>
  Prod.map MockData.line id (generateLine σ now k cfg)

/-- `generateBar` as a registered generator. -/
def genBarW : GenFun := fun σ now k cfg =>
  Prod.map MockData.bar id (generateBar σ now k cfg)

/-- `generatePie` as a registered generator. -/
def genPieW : GenFun := fun σ now k cfg =>
  Prod.map MockData.pie id (generatePie σ now k cfg)

/-- `generateScatter` as a registered generator. -/
def genScatterW : GenFun := fun σ now k cfg =>
  Prod.map MockData.scatter id (generateScatter σ now k cfg)

/-- `generateCandlestick` as a registered generator. -/
def genCandlestickW : GenFun := fun σ now k cfg =>
  Prod.map MockData.candlestick id (generateCandlestick σ now k cfg)

/-- `generateRadar` as a registered generator. -/
def genRadarW : GenFun := fun σ now k cfg =>
  Prod.map MockData.radar id (generateRadar σ now k cfg)

/-- `generateBoxplot` as a registered generator. -/
def genBoxplotW : GenFun := fun σ now k cfg =>
  Prod.map MockData.boxplot id (generateBoxplot σ now k cfg)

/-- `generateHeatmap` as a registered generator (also serves `matrix`, since
`generateMatrix = generateHeatmap`, mockData.js line 104). -/
def genHeatmapW : GenFun := fun σ now k cfg =>
  Prod.map MockData.heatmap id (generateHeatmap σ now k cfg)

/-- `generateGraph` as a registered generator. -/
def genGraphW : GenFun := fun σ now k cfg =>
  Prod.map MockData.graph id (generateGraph σ now k cfg)

/-- `generateTree` as a registered generator (also serves `treemap` and
`sunburst`, since `generateTreemap = generateSunburst = generateTree`,
mockData.js lines 131-132). -/
def genTreeW : GenFun := fun σ now k cfg =>
  Prod.map MockData.tree id (generateTree σ now k cfg)

/-- `generateSankey` as a registered generator. -/
def genSankeyW : GenFun := fun σ now k cfg =>
  Prod.map MockData.sankey id (generateSankey σ now k cfg)

/-- `generateFunnel` as a registered generator. -/
def genFunnelW : GenFun := fun σ now k cfg =>
  Prod.map MockData.funnel id (generateFunnel σ now k cfg)

/-- `generateGauge` as a registered generator. -/
def genGaugeW : GenFun := fun σ now k cfg =>
  Prod.map MockData.gauge id (generateGauge σ now k cfg)

/-- `generatePictorialBar` as a registered generator. -/
def genPictorialBarW : GenFun := fun σ now k cfg =>
  Prod.map MockData.pictorialBar id (generatePictorialBar σ now k cfg)

/-- `generateCalendar` as a registered generator. -/
def genCalendarW : GenFun := fun σ now k cfg =>
  Prod.map MockData.calendar id (generateCalendar σ now k cfg)

/-- The own properties of the `GENERATORS` dispatch object literal
(mockData.js lines 175-194): the eighteen registered archetype names in
declaration order, each mapped to its generator; `treemap` and `sunburst`
are bound to the same function as `tree`, and `matrix` to the same function
as `heatmap`, exactly as in the source.  Like every JS object literal, the
object additionally inherits the `Object.prototype` members
(`OBJECT_PROTOTYPE_KEYS` below), which a property read `GENERATORS[name]`
also finds. -/
def GENERATORS : List (String × GenFun) := [
  ("line", genLineW),
  ("bar", genBarW),
  ("pie", genPieW),
  ("scatter", genScatterW),
  ("candlestick", genCandlestickW),
  ("radar", genRadarW),
  ("boxplot", genBoxplotW),
  ("heatmap", genHeatmapW),
  ("graph", genGraphW),
  ("tree", genTreeW),
  ("treemap", genTreeW),
  ("sunburst", genTreeW),
  ("sankey", genSankeyW),
  ("funnel", genFunnelW),
  ("gauge", genGaugeW),
  ("pictorialBar", genPictorialBarW),
  ("calendar", genCalendarW),
  ("matrix", genHeatmapW)]

/-- The own property names of `Object.prototype` (ECMAScript
`%Object.prototype%`), inherited by every plain object literal —
`GENERATORS` included.  A property read `GENERATORS[name]` for one of these
names (none of which is a registered archetype) yields the inherited member:
a built-in function, or for `__proto__` the `%Object.prototype%` object
itself — in every case a truthy value. -/
def OBJECT_PROTOTYPE_KEYS : List String := [
  "constructor", "hasOwnProperty", "isPrototypeOf", "propertyIsEnumerable",
  "toLocaleString", "toString", "valueOf", "__defineGetter__",
  "__defineSetter__", "__lookupGetter__", "__lookupSetter__", "__proto__"]

/-- The outcome of a `buildMock` call.  `generated`: a registered
generator's result.  `protoInvoke`: the name read a truthy member inherited
from `Object.prototype`, which passed the `if (!gen)` check and was invoked
as `gen(config)`; the outcome of that invocation is engine- and
member-specific — under the module's strict-mode undefined `this`,
`toString` returns the string `"[object Undefined]"`, `constructor` (the
`Object` function) returns the config object, `hasOwnProperty` throws a
TypeError, `__proto__` is not callable — and is recorded abstractly, since
in no case is it the `Unknown mock type` error.  `unknownType`: the
``throw new Error(`Unknown mock type: ...`)``. -/
inductive MockOutcome where
  | generated (d : MockData) (k2 : ℕ)
  | protoInvoke (name : String)
  | unknownType (msg : String)

/-- `buildMock(type, config)` (mockData.js lines 197-201).
`const gen = GENERATORS[type]` is a prototype-chain property read: an own
key (one of the eighteen registered names) yields its generator, which is
run on the config; a key inherited from `Object.prototype` yields that
truthy member, so `if (!gen) throw …` does not fire and the member is
invoked in place of a generator (`protoInvoke`); only a name that is
neither own nor inherited reads `undefined` and throws
``Unknown mock type: `type` ``. -/
def buildMock (σ : ℕ → ℚ) (now : ℚ) (k : ℕ) (type : String) (cfg : Config) :
    MockOutcome :=
  match GENERATORS.lookup type with
  | some gen => .generated (gen σ now k cfg).1 (gen σ now k cfg).2
  | none =>
      if type ∈ OBJECT_PROTOTYPE_KEYS then .protoInvoke type
      else .unknownType ("Unknown mock type: " ++ type)

/-- The dispatch under own-property lookup only, as an exception monad.  It
agrees with the full prototype-chain dispatch `buildMock` for every `type`
outside `OBJECT_PROTOTYPE_KEYS` (`buildMock_eq_own_of_not_proto`) — in
particular on every registered name — and is the form the bundle loop below
consumes. -/
def buildMockOwn (σ : ℕ → ℚ) (now : ℚ) (k : ℕ) (type : String)
    (cfg : Config) : Except String (MockData × ℕ) :=
  match GENERATORS.lookup type with
  | none => .error ("Unknown mock type: " ++ type)
  | some gen => .ok (gen σ now k cfg)

/-- The registered archetype names — the own keys of `GENERATORS`. -/
def ARCHETYPES : List String := GENERATORS.map Prod.fst

/-- Looking up a key absent from an association list yields `none`. -/
theorem lookup_eq_none_of_not_mem_keys {α : Type} :
    ∀ (l : List (String × α)) (a : String), a ∉ l.map Prod.fst →
      List.lookup a l = none
  | [], _, _ => rfl
  | (key, v) :: t, a, h => by
      simp only [List.map_cons, List.mem_cons, not_or] at h
      have hne : (a == key) = false := by
        simp [h.1]
      simp only [List.lookup, hne]
      exact lookup_eq_none_of_not_mem_keys t a h.2

/-- Off the inherited `Object.prototype` names, the own-property dispatch
and the full prototype-chain dispatch agree. -/
theorem buildMock_eq_own_of_not_proto (σ : ℕ → ℚ) (now : ℚ) (k : ℕ)
    (type : String) (cfg : Config) (h : type ∉ OBJECT_PROTOTYPE_KEYS) :
    buildMock σ now k type cfg =
      match buildMockOwn σ now k type cfg with
      | .ok (d, k2) => MockOutcome.generated d k2
      | .error msg => MockOutcome.unknownType msg := by
  cases hlk : List.lookup type GENERATORS with
  | none => simp [buildMock, buildMockOwn, hlk, h]
  | some gen => simp [buildMock, buildMockOwn, hlk]

/-- Dispatch on a registered name finds the registered generator: the
own-property lookup returns it and both dispatch forms run it. -/
theorem dispatch_of_mem (σ : ℕ → ℚ) (now : ℚ) (k : ℕ) (cfg : Config)
    (type : String) (h : type ∈ ARCHETYPES) :
    ∃ gen, GENERATORS.lookup type = some gen ∧
      buildMockOwn σ now k type cfg = .ok (gen σ now k cfg) ∧
      buildMock σ now k type cfg =
        .generated (gen σ now k cfg).1 (gen σ now k cfg).2 := by
  fin_cases h <;> exact ⟨_, rfl, rfl, rfl⟩

/-- Claim C8, amended: `buildMock(type, config)` raises the error
``Unknown mock type: `type` `` (whose message contains the requested type)
exactly when `type` is neither one of the eighteen registered archetype
names nor a property name inherited from `Object.prototype`; for a
registered name the dispatch never raises and returns the registered
generator's result for that config; and for an inherited name the truthy
inherited member passes the `!gen` check and is invoked in place of a
generator.  (As stated — an error containing the type exactly when
unregistered — the claim fails: `buildMock('toString', {})` reads the
inherited truthy `Object.prototype.toString` and does not throw the
unknown-type error, see `buildMock_prototype_escape`.) -/
theorem buildMock_dispatch (σ : ℕ → ℚ) (now : ℚ) (k : ℕ) (cfg : Config)
    (type : String) :
    ARCHETYPES = ["line", "bar", "pie", "scatter", "candlestick", "radar",
      "boxplot", "heatmap", "graph", "tree", "treemap", "sunburst", "sankey",
      "funnel", "gauge", "pictorialBar", "calendar", "matrix"] ∧
    ((∃ msg, buildMock σ now k type cfg = .unknownType msg ∧
        ∃ p q, msg = p ++ type ++ q) ↔
      (type ∉ ARCHETYPES ∧ type ∉ OBJECT_PROTOTYPE_KEYS)) ∧
    (type ∈ ARCHETYPES → ∃ gen, GENERATORS.lookup type = some gen ∧
      buildMock σ now k type cfg =
        .generated (gen σ now k cfg).1 (gen σ now k cfg).2) ∧
    (type ∉ ARCHETYPES → type ∈ OBJECT_PROTOTYPE_KEYS →
      buildMock σ now k type cfg = .protoInvoke type) := by
  refine ⟨rfl, ⟨?_, ?_⟩, ?_, ?_⟩
  · rintro ⟨msg, hm, -⟩
    by_cases harch : type ∈ ARCHETYPES
    · obtain ⟨gen, -, -, hfull⟩ := dispatch_of_mem σ now k cfg type harch
      rw [hfull] at hm
      exact MockOutcome.noConfusion hm
    · refine ⟨harch, fun hproto => ?_⟩
      have hpi : buildMock σ now k type cfg = .protoInvoke type := by
        unfold buildMock
        rw [lookup_eq_none_of_not_mem_keys GENERATORS type harch,
          if_pos hproto]
      rw [hpi] at hm
      exact MockOutcome.noConfusion hm
  · rintro ⟨harch, hproto⟩
    refine ⟨"Unknown mock type: " ++ type, ?_, "Unknown mock type: ", "",
      by simp⟩
    unfold buildMock
    rw [lookup_eq_none_of_not_mem_keys GENERATORS type harch, if_neg hproto]
  · intro h
    obtain ⟨gen, hlk, -, hfull⟩ := dispatch_of_mem σ now k cfg type h
    exact ⟨gen, hlk, hfull⟩
  · intro harch hproto
    unfold buildMock
    rw [lookup_eq_none_of_not_mem_keys GENERATORS type harch, if_pos hproto]

/-- Witness for `buildMock_dispatch` at a concrete input: `tree` is
registered and dispatches to its generator. -/
theorem buildMock_dispatch_witness :
    ∃ gen, GENERATORS.lookup "tree" = some gen ∧
      buildMock sigmaZero 0 0 "tree" {} =
        MockOutcome.generated (gen sigmaZero 0 0 {}).1
          (gen sigmaZero 0 0 {}).2 :=
  (buildMock_dispatch sigmaZero 0 0 {} "tree").2.2.1 (by decide)

/-- Counterexample to claim C8 as stated: `toString` is not one of the
eighteen registered archetype names, yet `buildMock('toString', {})` does
not raise the unknown-type error — the property read finds the inherited
truthy `Object.prototype.toString`, which passes the `!gen` check and is
invoked in place of a generator. -/
theorem buildMock_prototype_escape :
    "toString" ∉ ARCHETYPES ∧
    buildMock sigmaZero 0 0 "toString" {} =
      MockOutcome.protoInvoke "toString" ∧
    ∀ msg, buildMock sigmaZero 0 0 "toString" {} ≠
      MockOutcome.unknownType msg := by
  refine ⟨by decide, rfl, fun msg h => ?_⟩
  rw [show buildMock sigmaZero 0 0 "toString" ({} : Config) =
    MockOutcome.protoInvoke "toString" from rfl] at h
  exact MockOutcome.noConfusion h

/-- One entry of the `buildMockBundle` request list: a string, an object
`{type, config}` (`config` optional), or any other value — e.g. `null`
(which fails the `r &&` guard: `typeof null` is `'object'` but `null` is
falsy) or a number (which fails `typeof r === 'object'`) — which the loop
skips. -/
inductive Request where
  | str (s : String)
  | obj (type : String) (config : Option Config)
  | other

/-- The archetype name an entry asks for (`none` for skipped entries). -/
def reqName : Request → Option String
  | .str s => some s
  | .obj t _ => some t
  | .other => none

/-- The config an entry passes to `buildMock` (`{}` for a string entry,
`r.config || {}` for an object entry). -/
def reqConfig : Request → Config
  | .str _ => {}
  | .obj _ c => c.getD {}
  | .other => {}

/-- An entry whose requested name (if any) has a registered generator. -/
def reqRegistered : Request → Prop
  | .str s => s ∈ ARCHETYPES
  | .obj t _ => t ∈ ARCHETYPES
  | .other => True

/-- The property assignment `bundle[key] = v` on a JS object, represented as
an association list in insertion order: replace in place when the key is
present, else append. -/
def bundleSet : List (String × MockData) → String → MockData →
    List (String × MockData)
  | [], key, v => [(key, v)]
  | (k0, v0) :: rest, key, v =>
      if k0 = key then (key, v) :: rest
      else (k0, v0) :: bundleSet rest key v

theorem bundleSet_mem_self :
    ∀ (l : List (String × MockData)) (key : String) (v : MockData),
      (key, v) ∈ bundleSet l key v
  | [], key, v => by simp [bundleSet]
  | (k0, v0) :: rest, key, v => by
      by_cases h : k0 = key
      · simp [bundleSet, h]
      · simp only [bundleSet, if_neg h, List.mem_cons]
        exact Or.inr (bundleSet_mem_self rest key v)

theorem mem_bundleSet :
    ∀ (l : List (String × MockData)) (key : String) (v : MockData)
      (p : String × MockData), p ∈ bundleSet l key v →
        p ∈ l ∨ p = (key, v)
  | [], key, v, p => by simp [bundleSet]
  | (k0, v0) :: rest, key, v, p => by
      by_cases h : k0 = key
      · simp only [bundleSet, if_pos h, List.mem_cons]
        rintro (rfl | hp)
        · exact Or.inr rfl
        · exact Or.inl (Or.inr hp)
      · simp only [bundleSet, if_neg h, List.mem_cons]
        rintro (rfl | hp)
        · exact Or.inl (Or.inl rfl)
        · rcases mem_bundleSet rest key v p hp with hh | hh
          · exact Or.inl (Or.inr hh)
          · exact Or.inr hh

theorem bundleSet_preserves :
    ∀ (l : List (String × MockData)) (key : String) (v : MockData)
      (t : String) (w : MockData), (t, w) ∈ l →
        ∃ w2, (t, w2) ∈ bundleSet l key v
  | [], _, _, _, _, h => absurd h (List.not_mem_nil _)
  | (k0, v0) :: rest, key, v, t, w, h => by
      by_cases hk : k0 = key
      · simp only [bundleSet, if_pos hk, List.mem_cons]
        rcases List.mem_cons.1 h with heq | hmem
        · injection heq with h1 h2
          refine ⟨v, Or.inl ?_⟩
          rw [h1, hk]
        · exact ⟨w, Or.inr hmem⟩
      · simp only [bundleSet, if_neg hk, List.mem_cons]
        rcases List.mem_cons.1 h with heq | hmem
        · injection heq with h1 h2
          exact ⟨v0, Or.inl (by rw [h1])⟩
        · obtain ⟨w2, hw2⟩ := bundleSet_preserves rest key v t w hmem
          exact ⟨w2, Or.inr hw2⟩

/-- The `requests.forEach` loop of `buildMockBundle` (mockData.js lines
205-212), threading the draw index and propagating the exception a
`buildMock` call on an unregistered name throws.  The inner calls go
through the own-property dispatch `buildMockOwn`, which agrees with the
full prototype-chain dispatch `buildMock` for every name outside
`OBJECT_PROTOTYPE_KEYS` (`buildMock_eq_own_of_not_proto`); the bundle
theorems below quantify only over registered names and the unregistered
`bogus`, all of which lie in that agreement region. -/
def bundleGo (σ : ℕ → ℚ) (now : ℚ) :
    ℕ → List Request → List (String × MockData) →
      Except String (List (String × MockData) × ℕ)
  | k, [], acc => .ok (acc, k)
  | k, .str s :: rest, acc =>
      match buildMockOwn σ now k s {} with
      | .error e => .error e
      | .ok (d, k2) => bundleGo σ now k2 rest (bundleSet acc s d)
  | k, .obj t c :: rest, acc =>
      match buildMockOwn σ now k t (c.getD {}) with
      | .error e => .error e
      | .ok (d, k2) => bundleGo σ now k2 rest (bundleSet acc t d)
  | k, .other :: rest, acc => bundleGo σ now k rest acc

/-- `buildMockBundle(requests)` (mockData.js lines 205-212). -/
def buildMockBundle (σ : ℕ → ℚ) (now : ℚ) (k : ℕ) (reqs : List Request) :
    Except String (List (String × MockData) × ℕ) :=
  bundleGo σ now k reqs []

/-- The bundle loop on registered requests: it succeeds, every bundle entry
either survives from the starting accumulator or carries the name and a
`buildMock` result of some request, accumulator keys survive, and every
recognized request contributes its key. -/
theorem bundleGo_ok (σ : ℕ → ℚ) (now : ℚ) :
    ∀ (reqs : List Request), (∀ r ∈ reqs, reqRegistered r) →
      ∀ (k : ℕ) (acc : List (String × MockData)),
        ∃ b k2, bundleGo σ now k reqs acc = .ok (b, k2) ∧
          (∀ p ∈ b, p ∈ acc ∨ ∃ r ∈ reqs, reqName r = some p.1 ∧
            ∃ ka kb, buildMock σ now ka p.1 (reqConfig r) =
              MockOutcome.generated p.2 kb) ∧
          (∀ t w, (t, w) ∈ acc → ∃ w2, (t, w2) ∈ b) ∧
          (∀ r ∈ reqs, ∀ t, reqName r = some t → ∃ w, (t, w) ∈ b) := by
  intro reqs
  induction reqs with
  | nil =>
      intro _ k acc
      exact ⟨acc, k, rfl, fun p hp => Or.inl hp, fun t w h => ⟨w, h⟩, by simp⟩
  | cons r rest ih =>
      intro hreg k acc
      have hregr := hreg r (List.mem_cons_self _ _)
      have hregrest : ∀ r2 ∈ rest, reqRegistered r2 := fun r2 h2 =>
        hreg r2 (List.mem_cons_of_mem _ h2)
      cases r with
      | str s =>
          obtain ⟨gen, hlk, hok, hfull⟩ := dispatch_of_mem σ now k {} s hregr
          obtain ⟨b, k3, hgo, hfrom, hpres, hall⟩ :=
            ih hregrest (gen σ now k {}).2 (bundleSet acc s (gen σ now k {}).1)
          refine ⟨b, k3, ?_, ?_, ?_, ?_⟩
          · simp only [bundleGo, hok]
            exact hgo
          · intro p hp
            rcases hfrom p hp with hmem | ⟨r2, hr2, hname, hbv⟩
            · rcases mem_bundleSet _ _ _ _ hmem with hacc | hps
              · exact Or.inl hacc
              · refine Or.inr ⟨.str s, List.mem_cons_self _ _, ?_, k,
                  (gen σ now k {}).2, ?_⟩
                · rw [hps]
                  rfl
                · rw [hps]
                  exact hfull
            · exact Or.inr ⟨r2, List.mem_cons_of_mem _ hr2, hname, hbv⟩
          · intro t w hw
            obtain ⟨w2, hw2⟩ := bundleSet_preserves acc s (gen σ now k {}).1
              t w hw
            exact hpres t w2 hw2
          · intro r2 hr2 t ht
            rcases List.mem_cons.1 hr2 with rfl | hr2
            · cases ht
              obtain ⟨w2, hw2⟩ := hpres s (gen σ now k {}).1
                (bundleSet_mem_self acc s (gen σ now k {}).1)
              exact ⟨w2, hw2⟩
            · exact hall r2 hr2 t ht
      | obj ty c =>
          obtain ⟨gen, hlk, hok, hfull⟩ := dispatch_of_mem σ now k (c.getD {})
            ty hregr
          obtain ⟨b, k3, hgo, hfrom, hpres, hall⟩ :=
            ih hregrest (gen σ now k (c.getD {})).2
              (bundleSet acc ty (gen σ now k (c.getD {})).1)
          refine ⟨b, k3, ?_, ?_, ?_, ?_⟩
          · simp only [bundleGo, hok]
            exact hgo
          · intro p hp
            rcases hfrom p hp with hmem | ⟨r2, hr2, hname, hbv⟩
            · rcases mem_bundleSet _ _ _ _ hmem with hacc | hps
              · exact Or.inl hacc
              · refine Or.inr ⟨.obj ty c, List.mem_cons_self _ _, ?_, k,
                  (gen σ now k (c.getD {})).2, ?_⟩
                · rw [hps]
                  rfl
                · rw [hps]
                  exact hfull
            · exact Or.inr ⟨r2, List.mem_cons_of_mem _ hr2, hname, hbv⟩
          · intro t w hw
            obtain ⟨w2, hw2⟩ := bundleSet_preserves acc ty
              (gen σ now k (c.getD {})).1 t w hw
            exact hpres t w2 hw2
          · intro r2 hr2 t ht
            rcases List.mem_cons.1 hr2 with rfl | hr2
            · cases ht
              obtain ⟨w2, hw2⟩ := hpres ty (gen σ now k (c.getD {})).1
                (bundleSet_mem_self acc ty (gen σ now k (c.getD {})).1)
              exact ⟨w2, hw2⟩
            · exact hall r2 hr2 t ht
      | other =>
          obtain ⟨b, k3, hgo, hfrom, hpres, hall⟩ := ih hregrest k acc
          refine ⟨b, k3, hgo, ?_, hpres, ?_⟩
          · intro p hp
            rcases hfrom p hp with hmem | ⟨r2, hr2, hname, hbv⟩
            · exact Or.inl hmem
            · exact Or.inr ⟨r2, List.mem_cons_of_mem _ hr2, hname, hbv⟩
          · intro r2 hr2 t ht
            rcases List.mem_cons.1 hr2 with rfl | hr2
            · exact Option.noConfusion ht
            · exact hall r2 hr2 t ht

/-- Claim C10, amended: for every request list all of whose string and
object entries name registered archetypes, `buildMockBundle` returns a
bundle keyed only by those names — every bundle entry carries the name of
some request and a `buildMock` result for that request's config, every
recognized request contributes its key, and an entry that is neither a
string nor a (non-null) object is skipped silently.  (As stated over every
request list the claim fails: a string entry naming an unregistered type
makes the inner `buildMock` throw and the exception propagates, see
`buildMockBundle_unknown_raises`.) -/
theorem buildMockBundle_recognized (σ : ℕ → ℚ) (now : ℚ) (k : ℕ)
    (reqs : List Request) (hreg : ∀ r ∈ reqs, reqRegistered r) :
    (∃ b k2, buildMockBundle σ now k reqs = .ok (b, k2) ∧
      (∀ p ∈ b, ∃ r ∈ reqs, reqName r = some p.1 ∧
        ∃ ka kb, buildMock σ now ka p.1 (reqConfig r) =
          MockOutcome.generated p.2 kb) ∧
      (∀ r ∈ reqs, ∀ t, reqName r = some t → ∃ w, (t, w) ∈ b)) ∧
    (∀ rest : List Request, buildMockBundle σ now k (Request.other :: rest) =
      buildMockBundle σ now k rest) := by
  constructor
  · obtain ⟨b, k2, hgo, hfrom, -, hall⟩ := bundleGo_ok σ now reqs hreg k []
    refine ⟨b, k2, hgo, ?_, hall⟩
    intro p hp
    rcases hfrom p hp with hmem | hsrc
    · exact absurd hmem (List.not_mem_nil p)
    · exact hsrc
  · intro rest
    rfl

/-- Witness for `buildMockBundle_recognized` at a concrete input (a string
request, a skipped entry, and an object request). -/
theorem buildMockBundle_recognized_witness :
    (∃ b k2, buildMockBundle sigmaZero 0 0
        [Request.str "gauge", Request.other, Request.obj "pie" none] =
          .ok (b, k2) ∧
      (∀ p ∈ b, ∃ r ∈ [Request.str "gauge", Request.other,
          Request.obj "pie" none], reqName r = some p.1 ∧
        ∃ ka kb, buildMock sigmaZero 0 ka p.1 (reqConfig r) =
          MockOutcome.generated p.2 kb) ∧
      (∀ r ∈ [Request.str "gauge", Request.other, Request.obj "pie" none],
        ∀ t, reqName r = some t → ∃ w, (t, w) ∈ b)) ∧
    (∀ rest : List Request,
      buildMockBundle sigmaZero 0 0 (Request.other :: rest) =
        buildMockBundle sigmaZero 0 0 rest) :=
  buildMockBundle_recognized sigmaZero 0 0
    [Request.str "gauge", Request.other, Request.obj "pie" none]
    (by
      intro r hr
      fin_cases hr
      · show "gauge" ∈ ARCHETYPES
        decide
      · trivial
      · show "pie" ∈ ARCHETYPES
        decide)

/-- Counterexample to claim C10 as stated: a request list whose string entry
names an unregistered type does not yield a bundle — the `buildMock` call
throws and `buildMockBundle` propagates the exception. -/
theorem buildMockBundle_unknown_raises :
    buildMockBundle sigmaZero 0 0 [Request.str "bogus"] =
      Except.error "Unknown mock type: bogus" := rfl

end ChartTest
